import Mathlib

/-!
Verification development for the arc rendering engine (haakenlabs/arc).

The definitions below are shallow embeddings of the Go sources:
  src/scene/camera.go  — the per-camera render pipeline (effect chain executor,
                         drawable classification cache, background clear,
                         pipeline setup),
  src/core/instance.go — the instance/identity allocator.

Machine integers (Go int32) are modelled as Lean Int with explicit two's
complement wraparound; Go's % on int32 is Int.tmod (truncated remainder).
-/

namespace Arc

/-- Render paths (camera.go: RenderPathForward, RenderPathDeferred). -/
inductive RenderPath
  | Forward
  | Deferred
deriving DecidableEq

/-- The camera's texture pool keys (camera.go: CameraTextureLDR0 .. CameraTextureNormals). -/
inductive CameraTexture
  | LDR0
  | LDR1
  | HDR0
  | HDR1
  | Depth
  | Normals
deriving DecidableEq

/-- Framebuffer attachment slots used by the camera
(gl.COLOR_ATTACHMENT0 .. gl.COLOR_ATTACHMENT4 and gl.DEPTH_ATTACHMENT). -/
inductive Attachment
  | color0
  | color1
  | color2
  | color3
  | color4
  | depthSlot
deriving DecidableEq

/-- Effect domain types (EffectTypeHDR, EffectTypeLDR, EffectTypeTonemapper). -/
inductive EffectType
  | HDR
  | LDR
  | Tonemapper
deriving DecidableEq

/-- The framebuffer attachment table built by Camera.setupPipeline:
COLOR_ATTACHMENT0 holds LDR0, COLOR_ATTACHMENT2 holds LDR1, COLOR_ATTACHMENT4 holds
Normals, DEPTH_ATTACHMENT holds Depth; COLOR_ATTACHMENT1 and COLOR_ATTACHMENT3 hold
HDR0 and HDR1 only when the HDR flag is set. -/
def attachmentTexture (hdr : Bool) : Attachment → Option CameraTexture
  | .color0 => some .LDR0
  | .color1 => if hdr then some .HDR0 else none
  | .color2 => some .LDR1
  | .color3 => if hdr then some .HDR1 else none
  | .color4 => some .Normals
  | .depthSlot => some .Depth

/-- Two's complement wraparound of a Go int32 value. -/
def i32wrap (x : Int) : Int :=
  (x + 2147483648) % 4294967296 - 2147483648

/-- The GL / camera state acted on by the effect chain executor.
Buffer contents are modelled abstractly as natural numbers; `drawCount` counts
full-screen quad draws; `boundTexture` is the texture bound at gl.TEXTURE0 (the
read source) and `drawBuffers` the attachment slots selected as draw targets. -/
structure EffectState where
  hdr : Bool
  effectActiveType : EffectType
  effectPass : Int
  boundTexture : CameraTexture
  drawBuffers : List Attachment
  contents : CameraTexture → Nat
  drawCount : Nat
  depthTest : Bool
  depthWrite : Bool

/-- framebuffer.ApplyDrawBuffers. -/
def applyDrawBuffers (bufs : List Attachment) (c : EffectState) : EffectState :=
  { c with drawBuffers := bufs }

/-- texture.ActivateTexture(gl.TEXTURE0): bind a texture as the read source. -/
def activateTexture (t : CameraTexture) (c : EffectState) : EffectState :=
  { c with boundTexture := t }

/-- One full-screen quad draw with the currently bound shader modelled as `g`:
every texture attached to a currently selected draw buffer receives `g` applied
to the content of the texture bound as the read source. -/
def drawQuad (g : Nat → Nat) (c : EffectState) : EffectState :=
  { c with
    contents := fun t =>
      if (c.drawBuffers.filterMap (attachmentTexture c.hdr)).contains t then
        g (c.contents c.boundTexture)
      else c.contents t,
    drawCount := c.drawCount + 1 }

/-- The texture-bind / draw-buffer-select phase of Camera.EffectPass (camera.go
lines 459-478): in the HDR domain, an odd counter binds HDR1 as read and selects
COLOR_ATTACHMENT1 (HDR0) as target, an even counter binds HDR0 and selects
COLOR_ATTACHMENT3 (HDR1); symmetrically for LDR with LDR1/COLOR_ATTACHMENT0 and
LDR0/COLOR_ATTACHMENT2. Go's int32 % is Int.tmod. Any other domain (Tonemapper)
leaves the bindings untouched. -/
def effectPassBind (c : EffectState) : EffectState :=
  if c.effectActiveType = EffectType.HDR then
    if Int.tmod c.effectPass 2 = 1 then
      applyDrawBuffers [Attachment.color1] (activateTexture CameraTexture.HDR1 c)
    else
      applyDrawBuffers [Attachment.color3] (activateTexture CameraTexture.HDR0 c)
  else if c.effectActiveType = EffectType.LDR then
    if Int.tmod c.effectPass 2 = 1 then
      applyDrawBuffers [Attachment.color0] (activateTexture CameraTexture.LDR1 c)
    else
      applyDrawBuffers [Attachment.color2] (activateTexture CameraTexture.LDR0 c)
  else c

/-- Camera.EffectPass: bind read/write buffers by domain and counter parity, draw
one full-screen quad with the effect's bound shader `g`, and increment the int32
sub-pass counter. -/
def EffectPass (g : Nat → Nat) (c : EffectState) : EffectState :=
  let c1 := drawQuad g (effectPassBind c)
  { c1 with effectPass := i32wrap (c1.effectPass + 1) }

/-- Camera.startEffectPass: reset the sub-pass counter; for a Tonemapper effect,
bind HDR0 as the read source and select COLOR_ATTACHMENT0 (LDR0) as the target. -/
def startEffectPass (c : EffectState) : EffectState :=
  let c1 := { c with effectPass := 0 }
  if c1.effectActiveType = EffectType.Tonemapper then
    applyDrawBuffers [Attachment.color0] (activateTexture CameraTexture.HDR0 c1)
  else c1

/-- Camera.endEffectPass: select COLOR_ATTACHMENT1 when the camera's HDR flag is
set (COLOR_ATTACHMENT0 otherwise); return early for a Tonemapper or when the
counter has Go remainder 1 mod 2; otherwise run the copy pass reading HDR1 (HDR
domain) or LDR1 (otherwise) and drawing one quad into the selected draw buffers.
The copy shader (shader.NewShaderUtilsCopy, an asset not under src/) is modelled
from the spec: it writes the read texture's content unchanged (identity). -/
def endEffectPass (c : EffectState) : EffectState :=
  let c1 := applyDrawBuffers (if c.hdr then [Attachment.color1] else [Attachment.color0]) c
  if c1.effectActiveType = EffectType.Tonemapper then c1
  else if Int.tmod c1.effectPass 2 = 1 then c1
  else
    drawQuad id (activateTexture
      (if c1.effectActiveType = EffectType.HDR then CameraTexture.HDR1 else CameraTexture.LDR1) c1)

/-- A post-process effect: its declared domain type and the shaders it binds for
its internal sub-passes (its Render calls Camera.EffectPass once per entry). -/
structure Eff where
  type : EffectType
  passes : List (Nat → Nat)

/-- Invoke the effect's Render: one EffectPass per requested sub-pass. -/
def renderEffect (e : Eff) (c : EffectState) : EffectState :=
  e.passes.foldl (fun s g => EffectPass g s) c

/-- One iteration of the HDR-branch loop body of Camera.renderEffects: a
Tonemapper-typed effect switches the active domain to Tonemapper for its own run
and to LDR afterwards; any other effect runs with the domain unchanged. -/
def runEffectStep (s : EffectState) (e : Eff) : EffectState :=
  if e.type = EffectType.Tonemapper then
    let s1 := { s with effectActiveType := EffectType.Tonemapper }
    let s2 := endEffectPass (renderEffect e (startEffectPass s1))
    { s2 with effectActiveType := EffectType.LDR }
  else
    endEffectPass (renderEffect e (startEffectPass s))

/-- The HDR branch of Camera.renderEffects, processing the chain in order. -/
def runEffectsHdr (es : List Eff) (c : EffectState) : EffectState :=
  es.foldl runEffectStep c

/-- One iteration of the non-HDR branch loop of Camera.renderEffects. -/
def runEffectStepLdr (s : EffectState) (e : Eff) : EffectState :=
  endEffectPass (renderEffect e (startEffectPass s))

/-- Camera.renderEffects: no-op on an empty chain; otherwise disable depth
writes and depth testing, set the starting domain (HDR on an HDR camera, LDR
otherwise), run the chain, and re-enable depth state. -/
def renderEffects (es : List Eff) (c : EffectState) : EffectState :=
  if es.isEmpty then c
  else
    let c0 := { c with depthWrite := false, depthTest := false }
    let c1 :=
      if c0.hdr then runEffectsHdr es { c0 with effectActiveType := EffectType.HDR }
      else List.foldl runEffectStepLdr { c0 with effectActiveType := EffectType.LDR } es
    { c1 with depthTest := true, depthWrite := true }

/-! ### Drawable classification cache (Camera.OnSceneGraphUpdate) -/

/-- A scene drawable: whether it reports SupportsDeferred, plus an identity tag. -/
structure Drawable where
  supportsDeferred : Bool
  tag : Nat
deriving DecidableEq

/-- A scene component: either drawable-capable (the type assertion to Drawable
succeeds) or not. -/
inductive SceneComponent
  | drawable (d : Drawable)
  | other (tag : Nat)
deriving DecidableEq

/-- The drawable-capable components of the scene, in registration order
(the collection loop of Camera.OnSceneGraphUpdate). -/
def sceneDrawables (comps : List SceneComponent) : List Drawable :=
  comps.filterMap fun c =>
    match c with
    | .drawable d => some d
    | .other _ => none

/-- Camera.OnSceneGraphUpdate: truncate both caches, gather the drawable-capable
components, then classify — with render path Forward the whole list becomes the
forward cache; with Deferred each drawable is appended to the deferred cache
when it supports the deferred pass and to the forward cache otherwise.
Returns (deferredCache, forwardCache); the previous cache contents are the
first two arguments and are discarded by the truncation. -/
def OnSceneGraphUpdate (renderPath : RenderPath)
    (_prevDeferred _prevForward : List Drawable)
    (comps : List SceneComponent) : List Drawable × List Drawable :=
  let clearedDeferred : List Drawable := []
  let clearedForward : List Drawable := []
  let drawables := sceneDrawables comps
  match renderPath with
  | .Forward => (clearedDeferred, drawables)
  | .Deferred =>
    drawables.foldl
      (fun acc d =>
        if d.supportsDeferred then (acc.1 ++ [d], acc.2) else (acc.1, acc.2 ++ [d]))
      (clearedDeferred, clearedForward)

/-! ### Background clear (Camera.clearBackground) -/

/-- Clear modes (camera.go: ClearModeSkybox, ClearModeColor, ClearModeDepth,
ClearModeNothing). -/
inductive ClearMode
  | skyboxMode
  | colorMode
  | depthMode
  | nothingMode
deriving DecidableEq

/-- An abstract 4x4 matrix, split into the data the skybox draw cares about:
its linear (rotation/scale/projection) part and its translation part. -/
structure Mat4 where
  linearPart : Int
  translationPart : Int
deriving DecidableEq

/-- Zero out a matrix's translation. -/
def removeTranslation (m : Mat4) : Mat4 :=
  { m with translationPart := 0 }

/-- An RGBA clear color (core.Color). -/
structure GLColor where
  r : Int
  g : Int
  b : Int
  a : Int
deriving DecidableEq

/-- gl.ClearColor(0, 0, 0, 1), restored after a Color-mode clear. -/
def neutralClearColor : GLColor := ⟨0, 0, 0, 1⟩

/-- A skybox asset: its specular and irradiance cubemap texture handles. -/
structure Skybox where
  specular : Nat
  irradiance : Nat
deriving DecidableEq

/-- Record of one full-screen skybox draw: which cubemap was sampled and the
view/projection matrices the shader effectively used. -/
structure SkyboxDraw where
  cubemap : Nat
  view : Mat4
  projection : Mat4
deriving DecidableEq

/-- Contents of a framebuffer attachment group: either pre-existing raw data or
data cleared with a given clear color. -/
inductive BufContent
  | raw (n : Nat)
  | cleared (col : GLColor)
deriving DecidableEq

/-- The framebuffer / GL state acted on by Camera.clearBackground. -/
structure BGState where
  colorData : BufContent
  depthData : BufContent
  clearColorState : GLColor
  skyboxDraws : List SkyboxDraw
deriving DecidableEq

/-- The camera fields read by Camera.clearBackground. -/
structure BgCamera where
  clearMode : ClearMode
  clearColor : GLColor
  viewMatrix : Mat4
  projectionMatrix : Mat4
  skybox : Option Skybox
deriving DecidableEq

/-- framebuffer.ClearBuffers: clear color and depth data with the current GL
clear color. -/
def clearBuffers (s : BGState) : BGState :=
  { s with colorData := .cleared s.clearColorState, depthData := .cleared s.clearColorState }

/-- framebuffer.ClearBufferFlags(gl.DEPTH_BUFFER_BIT): clear only depth. -/
def clearDepthOnly (s : BGState) : BGState :=
  { s with depthData := .cleared s.clearColorState }

/-- Modelled from the spec: the skybox shader asset (shader.NewShaderUtilsSkybox,
package system/asset/shader, not under src/) draws a full-screen cube/quad that
samples the bound specular cubemap using its view and projection uniforms with
translation removed. -/
def skyboxShaderDraw (specularTex : Nat) (view projection : Mat4) : SkyboxDraw :=
  ⟨specularTex, removeTranslation view, removeTranslation projection⟩

/-- Camera.clearBackground (camera.go lines 144-174): Nothing returns at once;
Depth clears only the depth buffer; Color sets the configured clear color,
clears all buffers, then restores the neutral clear color; Skybox clears all
buffers and then, only when the environment provides a skybox, draws the skybox
sampling its specular cubemap with the camera's view/projection uniforms. -/
def clearBackground (c : BgCamera) (s : BGState) : BGState :=
  if c.clearMode = ClearMode.nothingMode then s
  else if c.clearMode = ClearMode.depthMode then clearDepthOnly s
  else if c.clearMode = ClearMode.colorMode then
    let s1 := { s with clearColorState := c.clearColor }
    let s2 := clearBuffers s1
    { s2 with clearColorState := neutralClearColor }
  else if c.clearMode = ClearMode.skyboxMode then
    let s1 := clearBuffers s
    match c.skybox with
    | none => s1
    | some sb =>
      { s1 with
        skyboxDraws :=
          s1.skyboxDraws ++ [skyboxShaderDraw sb.specular c.viewMatrix c.projectionMatrix] }
  else s

/-! ### Pipeline setup (Camera.setupPipeline) -/

/-- The result of Camera.setupPipeline that later passes rely on: the
framebuffer attachment table, whether a G-buffer was built, and whether the HDR
texture pair exists. -/
structure Pipeline where
  attachments : Attachment → Option CameraTexture
  hasGBuffer : Bool
  hdrTextures : Bool

/-- Outcome of construction: a pipeline, or a Go panic (construction abort).
There is no error-returning alternative in the source. -/
inductive SetupResult
  | ok (p : Pipeline)
  | panicked (msg : String)

/-- Camera.setupPipeline (camera.go lines 283-336): allocate textures and the
framebuffer attachment table; panic when framebuffer.Alloc fails; under the
Deferred render path build the G-buffer and panic when gbuffer.Alloc fails.
The GPU allocation outcomes are inputs (the graphics package is external):
`fbAllocErr` / `gbAllocErr` are the errors returned by framebuffer.Alloc and
gbuffer.Alloc, or none on success. -/
def setupPipeline (renderPath : RenderPath) (hdr : Bool)
    (fbAllocErr gbAllocErr : Option String) : SetupResult :=
  match fbAllocErr with
  | some e => .panicked e
  | none =>
    if renderPath = RenderPath.Deferred then
      match gbAllocErr with
      | some e => .panicked e
      | none => .ok ⟨attachmentTexture hdr, true, hdr⟩
    else .ok ⟨attachmentTexture hdr, false, hdr⟩

/-! ### Instance system (src/core/instance.go) -/

/-- math.MaxInt32. -/
def maxInt32 : Nat := 2147483647

/-- The identity allocator's state: the keys currently present in the identity
table (objects map[int32]Object) and the next counter. -/
structure InstanceSystem where
  objects : List Int
  next : Int
deriving DecidableEq

/-- The scan loop of InstanceSystem.nextID, fuel-indexed. The Go loop body is
`for ok { id := s.next + 1; _, ok = s.objects[id] }`: the short variable
declaration creates a fresh inner id shadowing the outer one and s.next is never
updated, so every iteration re-tests the same key s.next + 1. `none` means the
loop has not terminated within the given fuel. -/
def nextIDSpin (s : InstanceSystem) : Nat → Bool → Option Unit
  | _, false => some ()
  | 0, true => none
  | fuel + 1, true => nextIDSpin s fuel (decide (i32wrap (s.next + 1) ∈ s.objects))

/-- InstanceSystem.nextID (instance.go lines 164-181): error when the table holds
at least MaxInt32 objects; otherwise compute id = next + 1 (int32), spin while
objects[id] exists, then set next to the outer id and return it. `none` means
the scan loop did not terminate within the given fuel. -/
def nextID (s : InstanceSystem) (fuel : Nat) : Option (Except String (Int × InstanceSystem)) :=
  if s.objects.length ≥ maxInt32 then some (.error "exceeded maximum number of instance IDs")
  else
    let id := i32wrap (s.next + 1)
    match nextIDSpin s fuel (decide (id ∈ s.objects)) with
    | none => none
    | some _ => some (.ok (id, { s with next := id }))

/-! ### Helper lemmas -/

theorem i32wrap_succ (x : Int) : i32wrap (i32wrap x + 1) = i32wrap (x + 1) := by
  unfold i32wrap
  omega

theorem applyDrawBuffers_hdr (bufs : List Attachment) (c : EffectState) :
    (applyDrawBuffers bufs c).hdr = c.hdr := rfl

theorem activateTexture_hdr (t : CameraTexture) (c : EffectState) :
    (activateTexture t c).hdr = c.hdr := rfl

theorem effectPassBind_hdr (c : EffectState) : (effectPassBind c).hdr = c.hdr := by
  unfold effectPassBind
  split
  · split <;> rfl
  · split
    · split <;> rfl
    · rfl

theorem effectPassBind_effectPass (c : EffectState) :
    (effectPassBind c).effectPass = c.effectPass := by
  unfold effectPassBind
  split
  · split <;> rfl
  · split
    · split <;> rfl
    · rfl

theorem effectPassBind_type (c : EffectState) :
    (effectPassBind c).effectActiveType = c.effectActiveType := by
  unfold effectPassBind
  split
  · split <;> rfl
  · split
    · split <;> rfl
    · rfl

theorem effectPassBind_drawCount (c : EffectState) :
    (effectPassBind c).drawCount = c.drawCount := by
  unfold effectPassBind
  split
  · split <;> rfl
  · split
    · split <;> rfl
    · rfl

theorem EffectPass_effectPass (g : Nat → Nat) (c : EffectState) :
    (EffectPass g c).effectPass = i32wrap (c.effectPass + 1) := by
  show i32wrap ((drawQuad g (effectPassBind c)).effectPass + 1) = _
  rw [show (drawQuad g (effectPassBind c)).effectPass = (effectPassBind c).effectPass from rfl,
    effectPassBind_effectPass]

theorem EffectPass_type (g : Nat → Nat) (c : EffectState) :
    (EffectPass g c).effectActiveType = c.effectActiveType := by
  show (drawQuad g (effectPassBind c)).effectActiveType = _
  rw [show (drawQuad g (effectPassBind c)).effectActiveType
      = (effectPassBind c).effectActiveType from rfl, effectPassBind_type]

theorem EffectPass_hdr (g : Nat → Nat) (c : EffectState) :
    (EffectPass g c).hdr = c.hdr := by
  show (drawQuad g (effectPassBind c)).hdr = _
  rw [show (drawQuad g (effectPassBind c)).hdr = (effectPassBind c).hdr from rfl,
    effectPassBind_hdr]

theorem EffectPass_drawCount (g : Nat → Nat) (c : EffectState) :
    (EffectPass g c).drawCount = c.drawCount + 1 := by
  show (drawQuad g (effectPassBind c)).drawCount = _
  rw [show (drawQuad g (effectPassBind c)).drawCount
      = (effectPassBind c).drawCount + 1 from rfl, effectPassBind_drawCount]

/-- During a Tonemapper effect, EffectPass performs no rebinding: the read
source and the draw targets are untouched. -/
theorem EffectPass_tonemapper_bound (g : Nat → Nat) (c : EffectState)
    (h : c.effectActiveType = EffectType.Tonemapper) :
    (EffectPass g c).boundTexture = c.boundTexture ∧
      (EffectPass g c).drawBuffers = c.drawBuffers := by
  have hbind : effectPassBind c = c := by
    unfold effectPassBind
    rw [if_neg (by simp [h]), if_neg (by simp [h])]
  constructor
  · show (drawQuad g (effectPassBind c)).boundTexture = _
    rw [hbind]
    rfl
  · show (drawQuad g (effectPassBind c)).drawBuffers = _
    rw [hbind]
    rfl

theorem foldl_effectPass_type (gs : List (Nat → Nat)) (c : EffectState) :
    (gs.foldl (fun s g => EffectPass g s) c).effectActiveType = c.effectActiveType := by
  induction gs generalizing c with
  | nil => rfl
  | cons g gs ih => rw [List.foldl_cons, ih, EffectPass_type]

theorem renderEffect_type (e : Eff) (c : EffectState) :
    (renderEffect e c).effectActiveType = c.effectActiveType :=
  foldl_effectPass_type e.passes c

theorem startEffectPass_type (c : EffectState) :
    (startEffectPass c).effectActiveType = c.effectActiveType := by
  unfold startEffectPass
  dsimp only
  split <;> rfl

theorem endEffectPass_type (c : EffectState) :
    (endEffectPass c).effectActiveType = c.effectActiveType := by
  unfold endEffectPass applyDrawBuffers
  dsimp only
  split
  · rfl
  · split <;> rfl

/-! ### Claims C7, C8, C9 -/

/-- Claim C7: with clear mode Skybox, clearBackground performs a full buffer
clear and then, only if the camera's environment provides a skybox asset
(otherwise nothing more is drawn), draws one full-screen cube/quad sampling the
skybox's specular cubemap using the camera's view and projection matrices with
translation removed. -/
theorem c7_skybox_clear (c : BgCamera) (s : BGState)
    (h : c.clearMode = ClearMode.skyboxMode) :
    (c.skybox = none → clearBackground c s = clearBuffers s) ∧
    (∀ sb : Skybox, c.skybox = some sb →
      clearBackground c s =
        { clearBuffers s with
          skyboxDraws := (clearBuffers s).skyboxDraws ++
            [⟨sb.specular, removeTranslation c.viewMatrix,
              removeTranslation c.projectionMatrix⟩] }) := by
  constructor
  · intro hnone
    simp [clearBackground, h, hnone]
  · intro sb hsb
    simp [clearBackground, h, hsb, skyboxShaderDraw]

/-- Claim C7 witness: a concrete skybox-mode camera with a skybox present. -/
theorem c7_skybox_clear_witness :
    clearBackground
        ⟨ClearMode.skyboxMode, ⟨1, 2, 3, 4⟩, ⟨5, 6⟩, ⟨7, 8⟩, some ⟨11, 12⟩⟩
        ⟨.raw 0, .raw 0, ⟨0, 0, 0, 1⟩, []⟩ =
      { clearBuffers ⟨.raw 0, .raw 0, ⟨0, 0, 0, 1⟩, []⟩ with
        skyboxDraws := (clearBuffers ⟨.raw 0, .raw 0, ⟨0, 0, 0, 1⟩, []⟩).skyboxDraws ++
          [⟨11, removeTranslation ⟨5, 6⟩, removeTranslation ⟨7, 8⟩⟩] } :=
  (c7_skybox_clear
      ⟨ClearMode.skyboxMode, ⟨1, 2, 3, 4⟩, ⟨5, 6⟩, ⟨7, 8⟩, some ⟨11, 12⟩⟩
      ⟨.raw 0, .raw 0, ⟨0, 0, 0, 1⟩, []⟩ rfl).2 ⟨11, 12⟩ rfl

/-- Claim C8: with clear mode Nothing, clearBackground performs no clear, no
draw and no state change: the resulting state is identical to the input state. -/
theorem c8_nothing_noop (c : BgCamera) (s : BGState)
    (h : c.clearMode = ClearMode.nothingMode) :
    clearBackground c s = s := by
  simp [clearBackground, h]

/-- Claim C8 witness: a concrete Nothing-mode camera leaves a concrete state
unchanged. -/
theorem c8_nothing_noop_witness :
    clearBackground ⟨ClearMode.nothingMode, ⟨1, 2, 3, 4⟩, ⟨5, 6⟩, ⟨7, 8⟩, none⟩
        ⟨.raw 42, .raw 7, ⟨0, 0, 0, 1⟩, []⟩ =
      ⟨.raw 42, .raw 7, ⟨0, 0, 0, 1⟩, []⟩ :=
  c8_nothing_noop ⟨ClearMode.nothingMode, ⟨1, 2, 3, 4⟩, ⟨5, 6⟩, ⟨7, 8⟩, none⟩
    ⟨.raw 42, .raw 7, ⟨0, 0, 0, 1⟩, []⟩ rfl

/-- Claim C9: if GPU allocation of the framebuffer or of the G-buffer fails
during setupPipeline, construction panics (aborts) rather than returning an
error value or continuing; a pipeline is produced exactly when the framebuffer
allocation succeeds and, under the Deferred path, the G-buffer allocation
succeeds as well. -/
theorem c9_alloc_failure_panics (rp : RenderPath) (hdr : Bool)
    (fb gb : Option String) :
    (∀ e : String, fb = some e → setupPipeline rp hdr fb gb = .panicked e) ∧
    (∀ e : String, fb = none → rp = RenderPath.Deferred → gb = some e →
      setupPipeline rp hdr fb gb = .panicked e) ∧
    ((∃ p : Pipeline, setupPipeline rp hdr fb gb = .ok p) ↔
      fb = none ∧ (rp = RenderPath.Deferred → gb = none)) := by
  refine ⟨fun e he => by simp [setupPipeline, he], fun e hfb hrp hgb => by
    simp [setupPipeline, hfb, hrp, hgb], ?_⟩
  constructor
  · rintro ⟨p, hp⟩
    cases hfb : fb with
    | some e => rw [hfb] at hp; simp [setupPipeline] at hp
    | none =>
      refine ⟨rfl, fun hrp => ?_⟩
      cases hgb : gb with
      | some e => rw [hfb, hgb] at hp; simp [setupPipeline, hrp] at hp
      | none => rfl
  · rintro ⟨hfb, hgb⟩
    rw [hfb]
    by_cases hrp : rp = RenderPath.Deferred
    · rw [hgb hrp]
      exact ⟨⟨attachmentTexture hdr, true, hdr⟩, by simp [setupPipeline, hrp]⟩
    · exact ⟨⟨attachmentTexture hdr, false, hdr⟩, by simp [setupPipeline, hrp]⟩

/-- Claim C9 witness: a Deferred HDR camera whose G-buffer allocation fails
panics with that error. -/
theorem c9_alloc_failure_panics_witness :
    setupPipeline RenderPath.Deferred true none (some "gbuffer alloc failed") =
      .panicked "gbuffer alloc failed" :=
  (c9_alloc_failure_panics RenderPath.Deferred true none
      (some "gbuffer alloc failed")).2.1 "gbuffer alloc failed" rfl rfl rfl

/-! ### Claim C6: drawable classification cache -/

theorem classifyFoldl (l : List Drawable) (a b : List Drawable) :
    l.foldl
        (fun acc d =>
          if d.supportsDeferred then (acc.1 ++ [d], acc.2) else (acc.1, acc.2 ++ [d]))
        (a, b) =
      (a ++ l.filter (fun d => d.supportsDeferred),
        b ++ l.filter (fun d => !d.supportsDeferred)) := by
  induction l generalizing a b with
  | nil => simp
  | cons d l ih =>
    by_cases hd : d.supportsDeferred <;>
      simp [List.foldl_cons, hd, ih, List.filter_cons]

/-- Claim C6: rebuilding the classification cache first clears both caches (the
result is independent of the previous cache contents) and places every
drawable-capable component in exactly one cache: under the Forward render path
every drawable goes to the forward cache; under Deferred a drawable is in the
deferred cache iff it reports deferred support and in the forward cache iff it
does not, and never in both. -/
theorem c6_classification (rp : RenderPath) (prevDef prevFwd : List Drawable)
    (comps : List SceneComponent) (d : Drawable) :
    OnSceneGraphUpdate rp prevDef prevFwd comps = OnSceneGraphUpdate rp [] [] comps ∧
    (rp = RenderPath.Forward →
      (OnSceneGraphUpdate rp prevDef prevFwd comps).1 = [] ∧
      (OnSceneGraphUpdate rp prevDef prevFwd comps).2 = sceneDrawables comps) ∧
    (rp = RenderPath.Deferred →
      (d ∈ (OnSceneGraphUpdate rp prevDef prevFwd comps).1 ↔
        d ∈ sceneDrawables comps ∧ d.supportsDeferred = true) ∧
      (d ∈ (OnSceneGraphUpdate rp prevDef prevFwd comps).2 ↔
        d ∈ sceneDrawables comps ∧ d.supportsDeferred = false) ∧
      ¬(d ∈ (OnSceneGraphUpdate rp prevDef prevFwd comps).1 ∧
        d ∈ (OnSceneGraphUpdate rp prevDef prevFwd comps).2)) := by
  refine ⟨rfl, fun hrp => ?_, fun hrp => ?_⟩
  · subst hrp
    exact ⟨rfl, rfl⟩
  · subst hrp
    have hd : OnSceneGraphUpdate RenderPath.Deferred prevDef prevFwd comps =
        ((sceneDrawables comps).filter (fun d => d.supportsDeferred),
          (sceneDrawables comps).filter (fun d => !d.supportsDeferred)) := by
      unfold OnSceneGraphUpdate
      dsimp only
      rw [classifyFoldl]
      simp
    rw [hd]
    refine ⟨by simp [List.mem_filter], by simp [List.mem_filter], ?_⟩
    rintro ⟨h1, h2⟩
    rw [List.mem_filter] at h1 h2
    simp [h1.2] at h2

/-- Claim C6 witness: a concrete Deferred-path scene with one deferred-capable
drawable, one forward-only drawable and one non-drawable component, rebuilt over
stale caches. -/
theorem c6_classification_witness :
    (⟨true, 0⟩ : Drawable) ∈
        (OnSceneGraphUpdate RenderPath.Deferred [⟨false, 9⟩] [⟨true, 8⟩]
          [.drawable ⟨true, 0⟩, .other 5, .drawable ⟨false, 1⟩]).1 ↔
      (⟨true, 0⟩ : Drawable) ∈
          sceneDrawables [.drawable ⟨true, 0⟩, .other 5, .drawable ⟨false, 1⟩] ∧
        (⟨true, 0⟩ : Drawable).supportsDeferred = true :=
  ((c6_classification RenderPath.Deferred [⟨false, 9⟩] [⟨true, 8⟩]
      [.drawable ⟨true, 0⟩, .other 5, .drawable ⟨false, 1⟩] ⟨true, 0⟩).2.2 rfl).1

/-! ### Claim C10: InstanceSystem.nextID -/

/-- The state that defeats nextID: object ID 1 is present in the identity table
and next = 0, so the candidate next + 1 = 1 is already assigned. -/
def stuckSystem : InstanceSystem := ⟨[1], 0⟩

theorem stuckSystem_spin (n : Nat) : nextIDSpin stuckSystem n true = none := by
  induction n with
  | zero => rfl
  | succ n ih =>
    show nextIDSpin stuckSystem n
        (decide (i32wrap (stuckSystem.next + 1) ∈ stuckSystem.objects)) = none
    have hdec : decide (i32wrap (stuckSystem.next + 1) ∈ stuckSystem.objects) = true := by
      decide
    rw [hdec]
    exact ih

/-- Claim C10 (code bug): on the state with ID 1 assigned and next = 0 — a table
far below 2^31 - 1 entries whose candidate next + 1 is already assigned — the
scan loop of nextID never terminates, for any amount of fuel: its body re-tests
the same key because the inner short variable declaration shadows the outer id
and s.next is never advanced. The claimed behavior (terminate and return a fresh
nonzero ID) fails. -/
theorem c10_nextID_diverges (fuel : Nat) : nextID stuckSystem fuel = none := by
  unfold nextID
  rw [if_neg (by decide)]
  dsimp only
  have hdec : decide (i32wrap (stuckSystem.next + 1) ∈ stuckSystem.objects) = true := by
    decide
  rw [hdec, stuckSystem_spin]

/-! ### Claim C2: no read/write aliasing within a sub-pass -/

theorem effectPassBind_hdr_odd (c : EffectState)
    (h : c.effectActiveType = EffectType.HDR) (hp : Int.tmod c.effectPass 2 = 1) :
    effectPassBind c =
      applyDrawBuffers [Attachment.color1] (activateTexture CameraTexture.HDR1 c) := by
  unfold effectPassBind
  rw [if_pos h, if_pos hp]

theorem effectPassBind_hdr_even (c : EffectState)
    (h : c.effectActiveType = EffectType.HDR) (hp : ¬Int.tmod c.effectPass 2 = 1) :
    effectPassBind c =
      applyDrawBuffers [Attachment.color3] (activateTexture CameraTexture.HDR0 c) := by
  unfold effectPassBind
  rw [if_pos h, if_neg hp]

theorem effectPassBind_ldr_odd (c : EffectState)
    (h : c.effectActiveType = EffectType.LDR) (hp : Int.tmod c.effectPass 2 = 1) :
    effectPassBind c =
      applyDrawBuffers [Attachment.color0] (activateTexture CameraTexture.LDR1 c) := by
  unfold effectPassBind
  rw [if_neg (by simp [h]), if_pos h, if_pos hp]

theorem effectPassBind_ldr_even (c : EffectState)
    (h : c.effectActiveType = EffectType.LDR) (hp : ¬Int.tmod c.effectPass 2 = 1) :
    effectPassBind c =
      applyDrawBuffers [Attachment.color2] (activateTexture CameraTexture.LDR0 c) := by
  unfold effectPassBind
  rw [if_neg (by simp [h]), if_pos h, if_neg hp]

/-- Claim C2: whenever the active effect domain is HDR or LDR, the buffer bound
as the read texture by the EffectPass bind phase differs from every buffer whose
attachment slot is selected as a draw target — for every state, hence for every
invocation within any number N of sub-passes of an effect. -/
theorem c2_subpass_no_alias (c : EffectState)
    (h : c.effectActiveType = EffectType.HDR ∨ c.effectActiveType = EffectType.LDR) :
    ∀ a ∈ (effectPassBind c).drawBuffers, ∀ t : CameraTexture,
      attachmentTexture c.hdr a = some t → (effectPassBind c).boundTexture ≠ t := by
  intro a ha t hat
  rcases h with h | h <;> by_cases hp : Int.tmod c.effectPass 2 = 1
  · rw [effectPassBind_hdr_odd c h hp] at ha ⊢
    have ha' : a = Attachment.color1 := by
      simpa [applyDrawBuffers, activateTexture] using ha
    subst ha'
    cases hh : c.hdr
    · rw [hh] at hat
      simp [attachmentTexture] at hat
    · rw [hh] at hat
      simp [attachmentTexture] at hat
      subst hat
      simp [applyDrawBuffers, activateTexture]
  · rw [effectPassBind_hdr_even c h hp] at ha ⊢
    have ha' : a = Attachment.color3 := by
      simpa [applyDrawBuffers, activateTexture] using ha
    subst ha'
    cases hh : c.hdr
    · rw [hh] at hat
      simp [attachmentTexture] at hat
    · rw [hh] at hat
      simp [attachmentTexture] at hat
      subst hat
      simp [applyDrawBuffers, activateTexture]
  · rw [effectPassBind_ldr_odd c h hp] at ha ⊢
    have ha' : a = Attachment.color0 := by
      simpa [applyDrawBuffers, activateTexture] using ha
    subst ha'
    simp [attachmentTexture] at hat
    subst hat
    simp [applyDrawBuffers, activateTexture]
  · rw [effectPassBind_ldr_even c h hp] at ha ⊢
    have ha' : a = Attachment.color2 := by
      simpa [applyDrawBuffers, activateTexture] using ha
    subst ha'
    simp [attachmentTexture] at hat
    subst hat
    simp [applyDrawBuffers, activateTexture]

/-- A concrete HDR-domain state at an odd sub-pass counter. -/
def pingSample : EffectState :=
  { hdr := true, effectActiveType := EffectType.HDR, effectPass := 1,
    boundTexture := .LDR0, drawBuffers := [.color1], contents := fun _ => 0,
    drawCount := 0, depthTest := false, depthWrite := false }

/-- Claim C2 witness: at the concrete odd HDR state, the read texture differs
from the write texture of the selected attachment. -/
theorem c2_subpass_no_alias_witness :
    (effectPassBind pingSample).boundTexture ≠ CameraTexture.HDR0 :=
  c2_subpass_no_alias pingSample (Or.inl rfl) Attachment.color1 (by decide)
    CameraTexture.HDR0 rfl

/-! ### Claim C5: draw-target restoration in endEffectPass -/

/-- A state reachable on an HDR camera after the Tonemapper: the camera's HDR
flag is set while the active effect domain is LDR. -/
def postTonemapState : EffectState :=
  { hdr := true, effectActiveType := EffectType.LDR, effectPass := 1,
    boundTexture := .LDR0, drawBuffers := [.color0], contents := fun _ => 0,
    drawCount := 0, depthTest := false, depthWrite := false }

/-- Claim C5 counterexample: on an HDR camera with active domain LDR (the
situation of every LDR effect after the Tonemapper), endEffectPass selects
COLOR_ATTACHMENT1 — the HDR-primary slot — as the draw target, not the active
domain's primary slot COLOR_ATTACHMENT0 as claimed. -/
theorem c5_restore_counterexample :
    (endEffectPass postTonemapState).drawBuffers = [Attachment.color1] ∧
      (endEffectPass postTonemapState).drawBuffers ≠ [Attachment.color0] := by
  decide

/-- Claim C5 (amended): endEffectPass always restores the draw target according
to the camera's HDR flag — COLOR_ATTACHMENT1 (HDR-primary) when the camera is
HDR, COLOR_ATTACHMENT0 (LDR-primary) otherwise — regardless of the active
effect domain. This coincides with the active domain's primary slot except for
LDR-domain effects on an HDR camera (i.e. after the Tonemapper). -/
theorem c5_restore_amended (c : EffectState) :
    (endEffectPass c).drawBuffers =
      if c.hdr then [Attachment.color1] else [Attachment.color0] := by
  unfold endEffectPass applyDrawBuffers
  dsimp only
  split
  · rfl
  · split
    · rfl
    · rfl

/-! ### Claim C1: result readable from the domain's primary buffer -/

/-- The frame state entering the effect chain on a non-HDR camera: the forward
pass left the scene image (value 7) in LDR0, the primary buffer; LDR1 holds
stale data (value 3). -/
def ldrFrameStart : EffectState :=
  { hdr := false, effectActiveType := EffectType.LDR, effectPass := 0,
    boundTexture := .LDR0, drawBuffers := [.color0],
    contents := fun t => if t = CameraTexture.LDR0 then 7 else 3,
    drawCount := 0, depthTest := true, depthWrite := true }

/-- Claim C1 (code bug): the endEffectPass parity test is inverted, so the
effect's result is not readable from the domain's primary buffer.
With one effect of N = 1 sub-pass applying Nat.succ, the result 8 = succ 7 is
left in the secondary LDR1 and the primary LDR0 still holds the stale value 7
(final counter 1 is odd, so the copy is skipped although the result sits in the
secondary buffer). With N = 2 sub-passes the result 9 = succ (succ 7) does land
in the primary, but the copy then runs (counter 2 is even) and overwrites it
with the stale intermediate 8 from the secondary. -/
theorem c1_endEffectPass_parity_bug :
    ((renderEffects [⟨EffectType.LDR, [Nat.succ]⟩] ldrFrameStart).contents
        CameraTexture.LDR0 = 7 ∧
      (renderEffects [⟨EffectType.LDR, [Nat.succ]⟩] ldrFrameStart).contents
        CameraTexture.LDR1 = 8) ∧
    (renderEffects [⟨EffectType.LDR, [Nat.succ, Nat.succ]⟩] ldrFrameStart).contents
        CameraTexture.LDR0 = 8 := by
  refine ⟨⟨?_, ?_⟩, ?_⟩ <;> rfl

/-! ### Claim C3: per-sub-pass ping-pong behavior -/

theorem iterate_effectPass_counter (g : Nat → Nat) (c : EffectState)
    (h0 : c.effectPass = 0) (k : Nat) :
    ((EffectPass g)^[k] c).effectPass = i32wrap k := by
  induction k with
  | zero =>
    have : i32wrap 0 = 0 := by decide
    simpa [h0] using this.symm
  | succ k ih =>
    rw [Function.iterate_succ_apply', EffectPass_effectPass, ih, i32wrap_succ]
    norm_cast

theorem iterate_effectPass_type (g : Nat → Nat) (c : EffectState) (k : Nat) :
    ((EffectPass g)^[k] c).effectActiveType = c.effectActiveType := by
  induction k with
  | zero => rfl
  | succ k ih => rw [Function.iterate_succ_apply', EffectPass_type, ih]

/-- The state of an HDR camera at the start of an HDR effect's sub-passes. -/
def hdrChainStart : EffectState :=
  { hdr := true, effectActiveType := EffectType.HDR, effectPass := 0,
    boundTexture := .HDR0, drawBuffers := [.color1], contents := fun _ => 0,
    drawCount := 0, depthTest := false, depthWrite := false }

/-- Claim C3 counterexample: after 2^31 + 1 sub-passes within one effect the
int32 sub-pass counter has wrapped to -(2^31 - 1), a mathematically odd value,
yet the next sub-pass takes the even branch (Go's remainder of a negative odd
int32 is -1, not 1): it binds the primary HDR0 as the read texture and selects
the secondary's slot COLOR_ATTACHMENT3 as the draw target, where the claim
requires the secondary HDR1 as read and the primary's slot COLOR_ATTACHMENT1
as target. -/
theorem c3_parity_counterexample :
    Odd ((EffectPass id)^[2147483649] hdrChainStart).effectPass ∧
      ((EffectPass id)^[2147483649] hdrChainStart).effectActiveType = EffectType.HDR ∧
      (effectPassBind ((EffectPass id)^[2147483649] hdrChainStart)).boundTexture =
        CameraTexture.HDR0 ∧
      (effectPassBind ((EffectPass id)^[2147483649] hdrChainStart)).drawBuffers =
        [Attachment.color3] := by
  have hc : ((EffectPass id)^[2147483649] hdrChainStart).effectPass = -2147483647 := by
    rw [iterate_effectPass_counter id hdrChainStart rfl 2147483649]
    decide
  have ht : ((EffectPass id)^[2147483649] hdrChainStart).effectActiveType =
      EffectType.HDR := iterate_effectPass_type id hdrChainStart 2147483649
  have hev : ¬Int.tmod ((EffectPass id)^[2147483649] hdrChainStart).effectPass 2 = 1 := by
    rw [hc]
    decide
  refine ⟨?_, ht, ?_, ?_⟩
  · rw [hc, Int.odd_iff]
    decide
  · rw [effectPassBind_hdr_even _ ht hev]
    rfl
  · rw [effectPassBind_hdr_even _ ht hev]
    rfl

theorem tmod_two_eq_one_iff_odd (p : Int) (hp : 0 ≤ p) :
    Int.tmod p 2 = 1 ↔ Odd p := by
  rw [Int.tmod_eq_emod hp (by norm_num)]
  exact Int.odd_iff.symm

/-- Claim C3 (amended): for every call to the sub-pass operation while the
active effect domain is HDR or LDR, provided fewer than 2^31 sub-passes have run
in the current effect (the int32 counter is nonnegative): if the counter is odd,
the active domain's secondary buffer is bound as the read texture and the
primary's attachment slot is selected as the draw target; if it is even, the
primary is bound as read and the secondary's slot is selected; in both domains
one full-screen quad is drawn and the counter is incremented by one (as an
int32). -/
theorem c3_subpass_behavior (g : Nat → Nat) (c : EffectState)
    (hpos : 0 ≤ c.effectPass) :
    (c.effectActiveType = EffectType.HDR →
      (Odd c.effectPass →
        (effectPassBind c).boundTexture = CameraTexture.HDR1 ∧
          (effectPassBind c).drawBuffers = [Attachment.color1]) ∧
      (Even c.effectPass →
        (effectPassBind c).boundTexture = CameraTexture.HDR0 ∧
          (effectPassBind c).drawBuffers = [Attachment.color3])) ∧
    (c.effectActiveType = EffectType.LDR →
      (Odd c.effectPass →
        (effectPassBind c).boundTexture = CameraTexture.LDR1 ∧
          (effectPassBind c).drawBuffers = [Attachment.color0]) ∧
      (Even c.effectPass →
        (effectPassBind c).boundTexture = CameraTexture.LDR0 ∧
          (effectPassBind c).drawBuffers = [Attachment.color2])) ∧
    (EffectPass g c).drawCount = c.drawCount + 1 ∧
    (EffectPass g c).effectPass = i32wrap (c.effectPass + 1) := by
  refine ⟨fun h => ⟨fun hodd => ?_, fun heven => ?_⟩,
    fun h => ⟨fun hodd => ?_, fun heven => ?_⟩,
    EffectPass_drawCount g c, EffectPass_effectPass g c⟩
  · rw [effectPassBind_hdr_odd c h ((tmod_two_eq_one_iff_odd _ hpos).mpr hodd)]
    exact ⟨rfl, rfl⟩
  · rw [effectPassBind_hdr_even c h (fun hm =>
      (Int.not_odd_iff_even.mpr heven) ((tmod_two_eq_one_iff_odd _ hpos).mp hm))]
    exact ⟨rfl, rfl⟩
  · rw [effectPassBind_ldr_odd c h ((tmod_two_eq_one_iff_odd _ hpos).mpr hodd)]
    exact ⟨rfl, rfl⟩
  · rw [effectPassBind_ldr_even c h (fun hm =>
      (Int.not_odd_iff_even.mpr heven) ((tmod_two_eq_one_iff_odd _ hpos).mp hm))]
    exact ⟨rfl, rfl⟩

/-- A concrete LDR-domain state at sub-pass counter 1. -/
def oddLdrSample : EffectState :=
  { hdr := false, effectActiveType := EffectType.LDR, effectPass := 1,
    boundTexture := .LDR0, drawBuffers := [.color2], contents := fun _ => 0,
    drawCount := 0, depthTest := false, depthWrite := false }

/-- Claim C3 witness: at the concrete LDR state with counter 1 (odd), the
secondary LDR1 is bound as read and the primary's slot COLOR_ATTACHMENT0 is the
draw target. -/
theorem c3_subpass_behavior_witness :
    (effectPassBind oddLdrSample).boundTexture = CameraTexture.LDR1 ∧
      (effectPassBind oddLdrSample).drawBuffers = [Attachment.color0] :=
  ((c3_subpass_behavior id oddLdrSample (by norm_num [oddLdrSample])).2.1 rfl).1
    (by show Odd (1 : Int); exact ⟨0, by norm_num⟩)

/-! ### Claim C4: the Tonemapper effect and the domain switch -/

/-- The chain state just before the k-th effect of an HDR camera's chain runs:
the fold of the renderEffects HDR-branch loop over the first k effects, starting
from the chain entry state (active domain set to HDR). -/
def chainState (es : List Eff) (k : Nat) (c : EffectState) : EffectState :=
  runEffectsHdr (es.take k) { c with effectActiveType := EffectType.HDR }

/-- The state in which the i-th effect's Render begins when that effect is a
Tonemapper: domain switched to Tonemapper, then startEffectPass. -/
def tonemapperEntry (es : List Eff) (i : Nat) (c : EffectState) : EffectState :=
  startEffectPass { chainState es i c with effectActiveType := EffectType.Tonemapper }

theorem runEffectsHdr_take_succ (es : List Eff) (k : Nat) (hk : k < es.length)
    (c : EffectState) :
    runEffectsHdr (es.take (k + 1)) c =
      runEffectStep (runEffectsHdr (es.take k) c) (es.get ⟨k, hk⟩) := by
  unfold runEffectsHdr
  rw [List.take_succ, List.getElem?_eq_getElem hk, List.foldl_append]
  rfl

theorem runEffectStep_type_of_ne (s : EffectState) (e : Eff)
    (h : e.type ≠ EffectType.Tonemapper) :
    (runEffectStep s e).effectActiveType = s.effectActiveType := by
  unfold runEffectStep
  rw [if_neg h, endEffectPass_type, renderEffect_type, startEffectPass_type]

theorem runEffectStep_type_tonemapper (s : EffectState) (e : Eff)
    (h : e.type = EffectType.Tonemapper) :
    (runEffectStep s e).effectActiveType = EffectType.LDR := by
  unfold runEffectStep
  rw [if_pos h]

theorem foldl_effectPass_tonemapper_bound (gs : List (Nat → Nat)) (s : EffectState)
    (h : s.effectActiveType = EffectType.Tonemapper) :
    (gs.foldl (fun a g => EffectPass g a) s).boundTexture = s.boundTexture ∧
      (gs.foldl (fun a g => EffectPass g a) s).drawBuffers = s.drawBuffers := by
  induction gs generalizing s with
  | nil => exact ⟨rfl, rfl⟩
  | cons g gs ih =>
    rw [List.foldl_cons]
    have hb := EffectPass_tonemapper_bound g s h
    have ht : (EffectPass g s).effectActiveType = EffectType.Tonemapper := by
      rw [EffectPass_type, h]
    obtain ⟨ih1, ih2⟩ := ih (EffectPass g s) ht
    exact ⟨by rw [ih1, hb.1], by rw [ih2, hb.2]⟩

theorem endEffectPass_tonemapper_noop (c : EffectState)
    (h : c.effectActiveType = EffectType.Tonemapper) :
    (endEffectPass c).drawCount = c.drawCount ∧
      (endEffectPass c).contents = c.contents := by
  unfold endEffectPass applyDrawBuffers
  dsimp only
  rw [if_pos h]
  exact ⟨rfl, rfl⟩

theorem tonemapperEntry_bound (es : List Eff) (i : Nat) (c : EffectState) :
    (tonemapperEntry es i c).boundTexture = CameraTexture.HDR0 ∧
      (tonemapperEntry es i c).drawBuffers = [Attachment.color0] := by
  unfold tonemapperEntry startEffectPass
  dsimp only
  rw [if_pos rfl]
  exact ⟨rfl, rfl⟩

theorem tonemapperEntry_type (es : List Eff) (i : Nat) (c : EffectState) :
    (tonemapperEntry es i c).effectActiveType = EffectType.Tonemapper := by
  unfold tonemapperEntry
  rw [startEffectPass_type]

theorem chainState_type_after_tonemapper (es : List Eff) (c : EffectState)
    (i : Nat) (hi : i < es.length)
    (htm : (es.get ⟨i, hi⟩).type = EffectType.Tonemapper)
    (hafter : ∀ k, ∀ hk : k < es.length, i < k →
      (es.get ⟨k, hk⟩).type ≠ EffectType.Tonemapper) :
    ∀ j, i < j → j ≤ es.length →
      (chainState es j c).effectActiveType = EffectType.LDR := by
  intro j
  induction j with
  | zero => omega
  | succ j ih =>
    intro hij hle
    have hjlen : j < es.length := by omega
    rcases Nat.lt_or_ge i j with hij' | hij'
    · unfold chainState
      rw [runEffectsHdr_take_succ es j hjlen,
        runEffectStep_type_of_ne _ _ (hafter j hjlen hij')]
      exact ih hij' (by omega)
    · have hi_eq : i = j := by omega
      subst hi_eq
      unfold chainState
      rw [runEffectsHdr_take_succ es i hjlen]
      exact runEffectStep_type_tonemapper _ _ htm

/-- Claim C4: on an HDR camera, for a Tonemapper-typed effect at position i of
the chain (with no further Tonemapper after it, per the documented single-
tonemapper chain contract): when it begins, the read source is forced to the
HDR-primary buffer HDR0 and the draw target to the LDR-primary slot
COLOR_ATTACHMENT0; after any prefix of its sub-passes those bindings are
unchanged (the sub-passes bypass the ping-pong rebinding); its endEffectPass
draws no corrective copy (draw count and all buffer contents unchanged); and the
active effect domain is LDR at the start of every subsequent effect j. -/
theorem c4_tonemapper_domain (es : List Eff) (c : EffectState) (i j m : Nat)
    (_hhdr : c.hdr = true) (hi : i < es.length) (hj : j ≤ es.length) (hij : i < j)
    (htm : (es.get ⟨i, hi⟩).type = EffectType.Tonemapper)
    (hafter : ∀ k, ∀ hk : k < es.length, i < k →
      (es.get ⟨k, hk⟩).type ≠ EffectType.Tonemapper) :
    (tonemapperEntry es i c).boundTexture = CameraTexture.HDR0 ∧
    (tonemapperEntry es i c).drawBuffers = [Attachment.color0] ∧
    ((((es.get ⟨i, hi⟩).passes.take m).foldl (fun s g => EffectPass g s)
        (tonemapperEntry es i c)).boundTexture = CameraTexture.HDR0 ∧
      (((es.get ⟨i, hi⟩).passes.take m).foldl (fun s g => EffectPass g s)
        (tonemapperEntry es i c)).drawBuffers = [Attachment.color0]) ∧
    ((endEffectPass (renderEffect (es.get ⟨i, hi⟩) (tonemapperEntry es i c))).drawCount =
        (renderEffect (es.get ⟨i, hi⟩) (tonemapperEntry es i c)).drawCount ∧
      (endEffectPass (renderEffect (es.get ⟨i, hi⟩) (tonemapperEntry es i c))).contents =
        (renderEffect (es.get ⟨i, hi⟩) (tonemapperEntry es i c)).contents) ∧
    (chainState es j c).effectActiveType = EffectType.LDR := by
  have hentry := tonemapperEntry_bound es i c
  have htype := tonemapperEntry_type es i c
  refine ⟨hentry.1, hentry.2, ?_, ?_, ?_⟩
  · have := foldl_effectPass_tonemapper_bound ((es.get ⟨i, hi⟩).passes.take m)
      (tonemapperEntry es i c) htype
    exact ⟨by rw [this.1, hentry.1], by rw [this.2, hentry.2]⟩
  · exact endEffectPass_tonemapper_noop _ (by rw [renderEffect_type, htype])
  · exact chainState_type_after_tonemapper es c i hi htm hafter j hij hj

/-- A concrete three-effect HDR chain: an HDR blur, the tonemapper, an LDR
vignette. -/
def sampleChain : List Eff :=
  [⟨EffectType.HDR, [Nat.succ]⟩, ⟨EffectType.Tonemapper, [Nat.succ]⟩,
    ⟨EffectType.LDR, [Nat.succ]⟩]

/-- Claim C4 witness: on the concrete chain, the domain at the start of the
effect following the tonemapper (index 2) is LDR. -/
theorem c4_tonemapper_domain_witness :
    (chainState sampleChain 2 hdrChainStart).effectActiveType = EffectType.LDR :=
  (c4_tonemapper_domain sampleChain hdrChainStart 1 2 1 rfl (by decide) (by decide)
    (by decide) rfl (by
      intro k hk hik
      have hlen : k < 3 := by simpa [sampleChain] using hk
      have hk2 : k = 2 := by omega
      subst hk2
      have hval : sampleChain.get ⟨2, hk⟩ = ⟨EffectType.LDR, [Nat.succ]⟩ := rfl
      rw [hval]
      decide)).2.2.2.2

end Arc
